import Mathlib

/-!
Verification of the aws-samples/kr-tech-blog-sample-code repository.

This file shallowly embeds the small algorithmic parts of the repository's
Python scripts as Lean definitions and proves the specification claims about
them.  Embedded modules:

* `src/bedrock/bedrock_usage/bedrock_tracker.py` — the `QCLI_TOKEN_ESTIMATION`
  table, `QCliAthenaTracker.estimate_tokens`, and the polling loop of
  `QCliAthenaTracker.execute_athena_query`;
* `src/bedrock/bedrock_usage/bedrock_tracker_cli.py` — its own copy of the
  table and of `estimate_tokens`;
* `src/bedrock/bedrock_usage/qcli_s3_analyzer.py` — `list_log_files`,
  `analyze_usage`, `_empty_stats`;
* `src/opensearch/opensearch_ubi/lambda/functions/prepare_ltr_data/prepare_ltr_data.py`
  — `fetch_judgments` and `format_for_ranklib`;
* `src/opensearch/opensearch_ubi/lambda/functions/train_ltr_model/train_ltr_model.py`
  — `upload_model`;
* `src/database/auroramysql-task-automation-tip/bluegreen_switchover.py` —
  the module-level switchover loop.

Modelling conventions: Python ints are `Nat` (all quantities involved are
non-negative counters) or `Int`; Python floats are modelled by `ℚ` with exact
arithmetic; Python dictionaries are association lists preserving insertion
order; a raised exception is an `Except.error`; AWS API calls are oracles
passed in as function arguments.
-/

namespace KrTechBlog

/-! ### Generic helpers: Python dict / list operations -/

/-- Python `d[k]` lookup on an association list with string keys (first match),
the model of a Python `dict` lookup / `k in d` test. -/
def lookupS {α : Type} : List (String × α) → String → Option α
  | [], _ => none
  | (k', v) :: rest, k => if k' = k then some v else lookupS rest k

/-- Update an association list at key `k`: if the key is present its value is
mapped through `f`, otherwise `(k, f dflt)` is appended.  This is the model of
a Python `defaultdict` mutation `d[k] = f(d[k])` (insertion order kept). -/
def updAssoc {κ α : Type} [DecidableEq κ] : List (κ × α) → κ → α → (α → α) → List (κ × α)
  | [], k, dflt, f => [(k, f dflt)]
  | (k', v) :: rest, k, dflt, f =>
    if k' = k then (k', f v) :: rest else (k', v) :: updAssoc rest k dflt f

/-- Python slicing `l[::step]` for a positive `step`: the elements at indices
`0, step, 2*step, ...`.  (For `step = 0` Python raises; the value returned
here at `0` is irrelevant because the code only calls it with `step ≥ 1`.) -/
def everyNthAux {α : Type} (step : Nat) : List α → Nat → List α
  | [], _ => []
  | x :: xs, i => if i = 0 then x :: everyNthAux step xs (step - 1) else everyNthAux step xs (i - 1)

/-- Python `l[::step]`. -/
def everyNth {α : Type} (l : List α) (step : Nat) : List α :=
  everyNthAux step l 0

/-- Python `sub in s` on lists of characters: `sub` occurs contiguously in `s`. -/
def containsSub (s : List Char) (sub : List Char) : Bool :=
  match s with
  | [] => sub.isEmpty
  | _ :: rest => sub.isPrefixOf s || containsSub rest sub

/-- Python `str.lower()` (ASCII model, via `Char.toLower`). -/
def pyLower (s : String) : String :=
  String.mk (s.data.map Char.toLower)

/-- Python truncation `int(q)` of a rational toward zero, as an `Int`. -/
def pyInt (q : ℚ) : Int :=
  if q < 0 then -(Int.floor (-q)) else Int.floor q

/-- Python truncation `int(q)` of a non-negative rational, as a `Nat`. -/
def pyIntNat (q : ℚ) : Nat :=
  (Int.floor q).toNat

/-- Python `s.endswith(t)`. -/
def pyEndsWith (s t : String) : Bool :=
  t.data.isSuffixOf s.data

/-! ### `bedrock_tracker.py`: token-estimation table and `estimate_tokens`

`QCliAthenaTracker.estimate_tokens` (bedrock_tracker.py lines 861-909) reads
per-event multipliers out of `QCLI_TOKEN_ESTIMATION` (lines 510-550) and sums
`summary.get(key, 0) * multiplier`.  A summary is an Athena aggregation row,
so all its counts are non-negative integers; an absent key is `none`. -/

/-- One entry of `QCLI_TOKEN_ESTIMATION`: the static per-event multipliers. -/
structure EstConstants where
  chat_message_input : Nat
  chat_message_output : Nat
  chat_code_line : Nat
  inline_suggestion : Nat
  inline_code_line : Nat
  dev_event_input : Nat
  dev_event_output : Nat
  test_event_input : Nat
  test_event_output : Nat
  doc_event_input : Nat
  doc_event_output : Nat
  deriving DecidableEq, Repr

/-- Python `QCLI_TOKEN_ESTIMATION["conservative"]` in bedrock_tracker.py. -/
def qcliConservative : EstConstants :=
  { chat_message_input := 100, chat_message_output := 300, chat_code_line := 50
    inline_suggestion := 40, inline_code_line := 50
    dev_event_input := 400, dev_event_output := 600
    test_event_input := 300, test_event_output := 500
    doc_event_input := 200, doc_event_output := 400 }

/-- Python `QCLI_TOKEN_ESTIMATION["average"]` in bedrock_tracker.py. -/
def qcliAverage : EstConstants :=
  { chat_message_input := 150, chat_message_output := 500, chat_code_line := 75
    inline_suggestion := 60, inline_code_line := 75
    dev_event_input := 600, dev_event_output := 1000
    test_event_input := 450, test_event_output := 750
    doc_event_input := 350, doc_event_output := 600 }

/-- Python `QCLI_TOKEN_ESTIMATION["optimistic"]` in bedrock_tracker.py. -/
def qcliOptimistic : EstConstants :=
  { chat_message_input := 200, chat_message_output := 800, chat_code_line := 100
    inline_suggestion := 80, inline_code_line := 100
    dev_event_input := 1000, dev_event_output := 1500
    test_event_input := 600, test_event_output := 1000
    doc_event_input := 500, doc_event_output := 800 }

/-- Python `QCLI_TOKEN_ESTIMATION` (bedrock_tracker.py lines 510-550). -/
def QCLI_TOKEN_ESTIMATION : List (String × EstConstants) :=
  [("conservative", qcliConservative), ("average", qcliAverage), ("optimistic", qcliOptimistic)]

/-- A usage-summary dictionary as consumed by `estimate_tokens`:
each count is absent (`none`) or a non-negative integer. -/
structure QSummary where
  total_chat_messages : Option Nat
  total_chat_code_lines : Option Nat
  total_inline_suggestions : Option Nat
  total_inline_code_lines : Option Nat
  total_inline_acceptances : Option Nat
  total_dev_events : Option Nat
  total_test_events : Option Nat
  total_doc_events : Option Nat
  deriving DecidableEq, Repr

/-- The result dictionary of `estimate_tokens`.  The Python `int(...)` casts
are identities here because every operand is already an integer. -/
structure TokenEstimate where
  estimation_type : String
  estimated_input_tokens : Nat
  estimated_output_tokens : Nat
  estimated_total_tokens : Nat
  deriving DecidableEq, Repr

/-- Python `QCliAthenaTracker.estimate_tokens` (bedrock_tracker.py lines 861-909).
An `estimation_type` missing from the table falls back to `"average"`; the
`getD qcliAverage` default is then never hit with a different value because
`"average"` is a key of the table. -/
def estimate_tokens (summary : QSummary) (estimation_type : String) : TokenEstimate :=
  let estimation_type' :=
    if (lookupS QCLI_TOKEN_ESTIMATION estimation_type).isSome then estimation_type else "average"
  let constants := (lookupS QCLI_TOKEN_ESTIMATION estimation_type').getD qcliAverage
  let estimated_input_tokens :=
    summary.total_chat_messages.getD 0 * constants.chat_message_input +
    summary.total_inline_suggestions.getD 0 * constants.inline_suggestion +
    summary.total_dev_events.getD 0 * constants.dev_event_input +
    summary.total_test_events.getD 0 * constants.test_event_input +
    summary.total_doc_events.getD 0 * constants.doc_event_input
  let estimated_output_tokens :=
    summary.total_chat_messages.getD 0 * constants.chat_message_output +
    summary.total_chat_code_lines.getD 0 * constants.chat_code_line +
    summary.total_inline_code_lines.getD 0 * constants.inline_code_line +
    summary.total_inline_acceptances.getD 0 * constants.inline_suggestion +
    summary.total_dev_events.getD 0 * constants.dev_event_output +
    summary.total_test_events.getD 0 * constants.test_event_output +
    summary.total_doc_events.getD 0 * constants.doc_event_output
  { estimation_type := estimation_type'
    estimated_input_tokens := estimated_input_tokens
    estimated_output_tokens := estimated_output_tokens
    estimated_total_tokens := estimated_input_tokens + estimated_output_tokens }

/-! `bedrock_tracker_cli.py` carries its own textual copy of the table
(lines 464-504) and of `estimate_tokens` (lines 815-863); both are embedded
separately so that their agreement is a theorem, not an assumption. -/

/-- Python `QCLI_TOKEN_ESTIMATION["conservative"]` in bedrock_tracker_cli.py. -/
def qcliConservativeCli : EstConstants :=
  { chat_message_input := 100, chat_message_output := 300, chat_code_line := 50
    inline_suggestion := 40, inline_code_line := 50
    dev_event_input := 400, dev_event_output := 600
    test_event_input := 300, test_event_output := 500
    doc_event_input := 200, doc_event_output := 400 }

/-- Python `QCLI_TOKEN_ESTIMATION["average"]` in bedrock_tracker_cli.py. -/
def qcliAverageCli : EstConstants :=
  { chat_message_input := 150, chat_message_output := 500, chat_code_line := 75
    inline_suggestion := 60, inline_code_line := 75
    dev_event_input := 600, dev_event_output := 1000
    test_event_input := 450, test_event_output := 750
    doc_event_input := 350, doc_event_output := 600 }

/-- Python `QCLI_TOKEN_ESTIMATION["optimistic"]` in bedrock_tracker_cli.py. -/
def qcliOptimisticCli : EstConstants :=
  { chat_message_input := 200, chat_message_output := 800, chat_code_line := 100
    inline_suggestion := 80, inline_code_line := 100
    dev_event_input := 1000, dev_event_output := 1500
    test_event_input := 600, test_event_output := 1000
    doc_event_input := 500, doc_event_output := 800 }

/-- Python `QCLI_TOKEN_ESTIMATION` (bedrock_tracker_cli.py lines 464-504). -/
def QCLI_TOKEN_ESTIMATION_CLI : List (String × EstConstants) :=
  [("conservative", qcliConservativeCli), ("average", qcliAverageCli),
   ("optimistic", qcliOptimisticCli)]

/-- Python `QCliAthenaTracker.estimate_tokens` (bedrock_tracker_cli.py lines 815-863). -/
def estimate_tokens_cli (summary : QSummary) (estimation_type : String) : TokenEstimate :=
  let estimation_type' :=
    if (lookupS QCLI_TOKEN_ESTIMATION_CLI estimation_type).isSome then estimation_type else "average"
  let constants := (lookupS QCLI_TOKEN_ESTIMATION_CLI estimation_type').getD qcliAverageCli
  let estimated_input_tokens :=
    summary.total_chat_messages.getD 0 * constants.chat_message_input +
    summary.total_inline_suggestions.getD 0 * constants.inline_suggestion +
    summary.total_dev_events.getD 0 * constants.dev_event_input +
    summary.total_test_events.getD 0 * constants.test_event_input +
    summary.total_doc_events.getD 0 * constants.doc_event_input
  let estimated_output_tokens :=
    summary.total_chat_messages.getD 0 * constants.chat_message_output +
    summary.total_chat_code_lines.getD 0 * constants.chat_code_line +
    summary.total_inline_code_lines.getD 0 * constants.inline_code_line +
    summary.total_inline_acceptances.getD 0 * constants.inline_suggestion +
    summary.total_dev_events.getD 0 * constants.dev_event_output +
    summary.total_test_events.getD 0 * constants.test_event_output +
    summary.total_doc_events.getD 0 * constants.doc_event_output
  { estimation_type := estimation_type'
    estimated_input_tokens := estimated_input_tokens
    estimated_output_tokens := estimated_output_tokens
    estimated_total_tokens := estimated_input_tokens + estimated_output_tokens }

/-! ### `bedrock_tracker.py`: the polling loop of `execute_athena_query`

Lines 567-606: after starting the query, the code polls
`get_query_execution` in `for i in range(60)`, breaking on `SUCCEEDED`,
raising on `FAILED`/`CANCELLED`, sleeping one second otherwise, and raising
`"Query timeout"` from the loop's `else` clause when 60 polls elapse.  The
sequence of observed states is the oracle `statuses`; `reasons i` is the
`StateChangeReason` that would accompany poll `i`.  (The one-second
`time.sleep` has no observable effect in this model.)  The returned `Nat` is
the index of the poll that observed `SUCCEEDED`. -/

/-- The polling loop with `fuel` iterations remaining, about to poll index `i`. -/
def pollAux (statuses reasons : Nat → String) : Nat → Nat → Except String Nat
  | 0, _ => .error "Query timeout"
  | fuel + 1, i =>
    let status := statuses i
    if status = "SUCCEEDED" then .ok i
    else if status = "FAILED" ∨ status = "CANCELLED" then
      .error ("Query failed: " ++ reasons i)
    else pollAux statuses reasons fuel (i + 1)

/-- The `for i in range(60) ... else` polling loop of `execute_athena_query`. -/
def pollQuery (statuses reasons : Nat → String) : Except String Nat :=
  pollAux statuses reasons 60 0

/-- Python `QCliAthenaTracker.execute_athena_query` (bedrock_tracker.py lines
567-606), with the result-fetching step abstracted as the value `results`
that `get_query_results` would produce: results are fetched (appear in the
`ok` case) exactly when the polling loop broke on `SUCCEEDED`. -/
def execute_athena_query {α : Type} (statuses reasons : Nat → String) (results : α) :
    Except String α :=
  (pollQuery statuses reasons).map (fun _ => results)

/-! ### `bluegreen_switchover.py`: the module-level switchover loop

Lines 26-44: for each deployment from `describe_blue_green_deployments`
(an identifier/name pair), the script re-describes the deployment, and calls
`switchover_blue_green_deployment` when the described `Status` is
`"AVAILABLE"`; otherwise it only prints.  `statusOf` is the oracle for the
per-deployment describe call (`.error` when that call raises, which the
`except` block turns into a printed message).  The returned list collects the
identifiers for which a switchover call was issued, in order. -/

/-- One iteration of the switchover loop: the `try` body for one deployment
(identifier, cluster name).  A describe failure is caught and prints; an
`"AVAILABLE"` status issues the switchover call; any other status prints. -/
def switchoverStep (statusOf : String → Except String String)
    (calls : List String) (dep : String × String) : List String :=
  match statusOf dep.1 with
  | .error _ => calls
  | .ok status => if status = "AVAILABLE" then calls ++ [dep.1] else calls

def switchoverRun (deployments : List (String × String))
    (statusOf : String → Except String String) : List String :=
  deployments.foldl (switchoverStep statusOf) []

/-! ### `train_ltr_model.py`: `upload_model` (lines 283-340)

The function splits `training_data.strip()` into lines, drops empty lines,
returns `False` when none remain, and otherwise uploads a model definition of
type `"model/linear"` with eight hardcoded weights.  (`num_features` is
computed from the first line but never used.)  The uploaded definition is the
`some` value; `none` models the `return False` path where nothing is sent. -/

/-- Python whitespace characters, the ones removed by `str.strip()`. -/
def isPySpace (c : Char) : Bool :=
  c = ' ' ∨ c = '\t' ∨ c = '\n' ∨ c = '\r' ∨ c = '\x0B' ∨ c = '\x0C'

/-- Python `str.strip()` on a character list. -/
def pyStrip (l : List Char) : List Char :=
  ((l.dropWhile isPySpace).reverse.dropWhile isPySpace).reverse

/-- Python `s.split('\n')`: always at least one (possibly empty) part. -/
def splitNL : List Char → List (List Char)
  | [] => [[]]
  | c :: rest =>
    let r := splitNL rest
    if c = '\n' then [] :: r
    else
      match r with
      | a :: tail => (c :: a) :: tail
      | [] => [[c]]

/-- Python `[l for l in training_data.strip().split('\n') if l]` (line 287). -/
def pyLines (training_data : String) : List (List Char) :=
  (splitNL (pyStrip training_data.data)).filter (fun l => !l.isEmpty)

/-- The model definition built by `upload_model`; weights are the Python
float literals, represented exactly as rationals. -/
structure LtrModelDefinition where
  name : String
  model_type : String
  weights : List (String × ℚ)
  deriving DecidableEq, Repr

/-- The hardcoded weight vector of `upload_model` (lines 299-317):
1.0, 0.5, 0.3, 0.2, 0.2, 0.1, 0.3, 0.1 for features "1"‥"8". -/
def ltrFixedWeights : List (String × ℚ) :=
  [("1", 1), ("2", 1/2), ("3", 3/10), ("4", 1/5),
   ("5", 1/5), ("6", 1/10), ("7", 3/10), ("8", 1/10)]

/-- Python `upload_model` (train_ltr_model.py lines 283-340): `none` when no
non-empty line remains after stripping (the `return False` path, no request
sent), otherwise the fixed `"model/linear"` definition that is sent. -/
def upload_model (model_name : String) (training_data : String) :
    Option LtrModelDefinition :=
  let lines := pyLines training_data
  if lines.isEmpty then none
  else some { name := model_name, model_type := "model/linear", weights := ltrFixedWeights }

/-! ### `prepare_ltr_data.py`: `fetch_judgments` (lines 52-100)

The whole body after building the query sits in a `try` whose `except`
logs and returns `[]`.  The OpenSearch `client.search` call is the oracle
`searchResult`; a hit's `_source` fields are each present or absent. -/

/-- The `_source` of one judgment hit (fields via `source.get(...)`). -/
structure JudgmentSource where
  query : Option String
  doc_id : Option String
  rating : Option ℚ
  rank : Option Nat
  product_name : Option String
  timestamp : Option String
  deriving DecidableEq, Repr

/-- The record appended for one hit (lines 86-94). -/
def judgmentOfHit (source : JudgmentSource) : JudgmentSource :=
  { query := source.query, doc_id := source.doc_id, rating := source.rating
    rank := source.rank, product_name := source.product_name
    timestamp := source.timestamp }

/-- Python `fetch_judgments` (prepare_ltr_data.py lines 52-100). -/
def fetch_judgments (searchResult : Except String (List JudgmentSource)) :
    List JudgmentSource :=
  match searchResult with
  | .error _ => []
  | .ok hits => hits.map judgmentOfHit

/-! ### `qcli_s3_analyzer.py`: `list_log_files` (lines 69-121)

The date loop from `start_date` to `end_date` is given as the list `dates` of
`(year, month, day)` strftime components; `s3ListKeys` is the oracle for the
`list_objects_v2` pagination over one S3 key pfx (all pages merged), with
`.error` for a raised exception.  The `try` block wraps the whole loop, so a
single failure yields `[]` for the whole call. -/

/-- The body of the `try` block: collect the `.json.gz` keys for every date
and log type, propagating any S3 exception. -/
def listLogFilesCore (s3ListKeys : String → Except String (List String))
    (account_id : String) (dates : List (String × String × String))
    (log_type : Option String) : Except String (List String) :=
  dates.foldlM (fun acc ymd => do
    let log_types := match log_type with
      | some lt => [lt]
      | none => ["GenerateAssistantResponse", "GenerateCompletions"]
    log_types.foldlM (fun acc2 lt => do
      let pfx := "prompt_logging/AWSLogs/" ++ account_id ++ "/QDeveloperLogs/" ++
        lt ++ "/us-east-1/" ++ ymd.1 ++ "/" ++ ymd.2.1 ++ "/" ++ ymd.2.2 ++ "/"
      let keys ← s3ListKeys pfx
      pure (acc2 ++ keys.filter (fun k => pyEndsWith k ".json.gz"))) acc) []

/-- Python `QCliS3LogAnalyzer.list_log_files` (qcli_s3_analyzer.py lines 69-121):
the `except` clause logs and returns the empty list. -/
def list_log_files (s3ListKeys : String → Except String (List String))
    (account_id : String) (dates : List (String × String × String))
    (log_type : Option String) : List String :=
  match listLogFilesCore s3ListKeys account_id dates log_type with
  | .ok files => files
  | .error _ => []

/-! ### `qcli_s3_analyzer.py`: `analyze_usage` (lines 181-310) and
`_empty_stats` (lines 312-328)

A parsed log record as produced by `parse_log_file` (lines 123-179): its
`type` is always `'chat'` or `'inline'`; `userId` and `timestamp` come from
`request.get(...)` and may be `None`.  A present-but-`None` timestamp and the
default `''` behave identically (both falsy, only used under truthiness), so
the timestamp is collapsed to a `String` with `""` for absent/`None`. -/

inductive LType where
  | chat
  | inline
  deriving DecidableEq, Repr

structure LogRecord where
  rtype : LType
  input_tokens : Nat
  output_tokens : Nat
  userId : Option String
  timestamp : String
  deriving DecidableEq, Repr

/-- One value of the `by_type` dictionary. -/
structure TypeStats where
  count : Nat
  input_tokens : Nat
  output_tokens : Nat
  deriving DecidableEq, Repr

/-- One value of the `by_user` / `by_date` defaultdicts. -/
structure GroupStats where
  requests : Nat
  input_tokens : Nat
  output_tokens : Nat
  deriving DecidableEq, Repr

/-- The `period` sub-dictionary (start/end ISO strings and
`(end_date - start_date).days + 1`). -/
structure PeriodInfo where
  startIso : String
  endIso : String
  days : Int
  deriving DecidableEq, Repr

/-- The statistics dictionary returned by `analyze_usage`; `period := none`
models the empty `period` dict of `_empty_stats`.  The fixed-key `by_type`
dict is the two fields `by_type_chat` / `by_type_inline`; `by_user` is keyed
by the Python value `record.get('userId', 'unknown')`, which for records from
`parse_log_file` is the (possibly `None`) `userId`. -/
structure UsageStats where
  period : Option PeriodInfo
  total_log_files : Nat
  total_requests : Nat
  by_type_chat : TypeStats
  by_type_inline : TypeStats
  by_user : List (Option String × GroupStats)
  by_date : List (String × GroupStats)
  by_hour : List (String × Nat)
  total_input_tokens : Nat
  total_output_tokens : Nat
  total_tokens : Nat
  deriving DecidableEq, Repr

/-- Python `QCliS3LogAnalyzer._empty_stats` (lines 312-328). -/
def emptyStats : UsageStats :=
  { period := none, total_log_files := 0, total_requests := 0
    by_type_chat := ⟨0, 0, 0⟩, by_type_inline := ⟨0, 0, 0⟩
    by_user := [], by_date := [], by_hour := []
    total_input_tokens := 0, total_output_tokens := 0, total_tokens := 0 }

/-- The user filter of the record loop (lines 250-252): skip the record iff
`user_pattern` and `record.get('userId')` are both truthy and the lowered
pattern is not a substring of the lowered user id. -/
def passesFilter (user_pattern : Option String) (r : LogRecord) : Bool :=
  match user_pattern, r.userId with
  | some p, some u =>
    if p ≠ "" ∧ u ≠ "" then containsSub (pyLower u).data (pyLower p).data else true
  | _, _ => true

/-- Python `by_type[t] += record` (lines 260-262). -/
def bumpType (t : TypeStats) (r : LogRecord) : TypeStats :=
  ⟨t.count + 1, t.input_tokens + r.input_tokens, t.output_tokens + r.output_tokens⟩

/-- Python `by_user[u] / by_date[d] += record` on a defaultdict. -/
def bumpGroup (r : LogRecord) (g : GroupStats) : GroupStats :=
  ⟨g.requests + 1, g.input_tokens + r.input_tokens, g.output_tokens + r.output_tokens⟩

/-- The body of `for record in records` (lines 248-281).  The trailing
timestamp block mirrors the `try`/`except`: `by_date` is updated with the
part before the first `'T'`, and `by_hour` only when a `'T'` exists (the
`timestamp.split('T')[1]` `IndexError` is swallowed after the `by_date`
update has already happened). -/
def stepRecord (user_pattern : Option String) (s : UsageStats) (r : LogRecord) : UsageStats :=
  if passesFilter user_pattern r then
    let s := { s with total_requests := s.total_requests + 1 }
    let s :=
      match r.rtype with
      | .chat => { s with by_type_chat := bumpType s.by_type_chat r }
      | .inline => { s with by_type_inline := bumpType s.by_type_inline r }
    let s := { s with by_user := updAssoc s.by_user r.userId ⟨0, 0, 0⟩ (bumpGroup r) }
    if r.timestamp ≠ "" then
      let parts := r.timestamp.splitOn "T"
      let date_str := parts.headD ""
      let s := { s with by_date := updAssoc s.by_date date_str ⟨0, 0, 0⟩ (bumpGroup r) }
      if 2 ≤ parts.length then
        let hour := ((parts.getD 1 "").splitOn ":").headD ""
        { s with by_hour := updAssoc s.by_hour hour 0 (· + 1) }
      else s
    else s
  else s

/-- Insertion into a key-sorted association list (for Python `sorted(...)`
on unique keys). -/
def insertSorted {α : Type} (x : String × α) : List (String × α) → List (String × α)
  | [] => [x]
  | y :: rest => if x.1 ≤ y.1 then x :: y :: rest else y :: insertSorted x rest

/-- Python `dict(sorted(d.items()))` (lines 292-293): sort an association list by
key in ascending string order. -/
def sortByKey {α : Type} (l : List (String × α)) : List (String × α) :=
  l.foldr insertSorted []

/-- Python `int(value * scale_factor)` (lines 300-308): all scaled values are
non-negative, so Python truncation is the floor. -/
def scaleStat (x : Nat) (scale_factor : ℚ) : Nat :=
  pyIntNat ((x : ℚ) * scale_factor)

/-- Python `QCliS3LogAnalyzer.analyze_usage` (qcli_s3_analyzer.py lines 181-310).
`parse_log_file` is the oracle giving the parsed records of one S3 key (its
own `except` already yields `[]` on failure, so it is total); the date range
arrives as the strftime components `dates` plus the ISO strings and the
day-delta used for `period`. -/
def analyze_usage (s3ListKeys : String → Except String (List String))
    (account_id : String) (dates : List (String × String × String))
    (parse_log_file : String → List LogRecord)
    (startIso endIso : String) (deltaDays : Int)
    (user_pattern : Option String) : UsageStats :=
  let log_files := list_log_files s3ListKeys account_id dates none
  if log_files.isEmpty then emptyStats
  else
    let stats0 : UsageStats :=
      { period := some ⟨startIso, endIso, deltaDays + 1⟩
        total_log_files := log_files.length
        total_requests := 0
        by_type_chat := ⟨0, 0, 0⟩, by_type_inline := ⟨0, 0, 0⟩
        by_user := [], by_date := [], by_hour := []
        total_input_tokens := 0, total_output_tokens := 0, total_tokens := 0 }
    let max_files := 500
    let sample_files :=
      if log_files.length ≤ max_files then log_files
      else everyNth log_files (log_files.length / max_files)
    let records := (sample_files.map parse_log_file).flatten
    let stats1 := records.foldl (stepRecord user_pattern) stats0
    let total_input := stats1.by_type_chat.input_tokens + stats1.by_type_inline.input_tokens
    let total_output := stats1.by_type_chat.output_tokens + stats1.by_type_inline.output_tokens
    let stats2 :=
      { stats1 with
        total_input_tokens := total_input
        total_output_tokens := total_output
        total_tokens := total_input + total_output
        by_date := sortByKey stats1.by_date
        by_hour := sortByKey stats1.by_hour }
    if sample_files.length < log_files.length then
      let scale_factor : ℚ := (log_files.length : ℚ) / (sample_files.length : ℚ)
      { stats2 with
        total_requests := scaleStat stats2.total_requests scale_factor
        total_input_tokens := scaleStat stats2.total_input_tokens scale_factor
        total_output_tokens := scaleStat stats2.total_output_tokens scale_factor
        total_tokens := scaleStat stats2.total_tokens scale_factor
        by_type_chat := ⟨scaleStat stats2.by_type_chat.count scale_factor,
          scaleStat stats2.by_type_chat.input_tokens scale_factor,
          scaleStat stats2.by_type_chat.output_tokens scale_factor⟩
        by_type_inline := ⟨scaleStat stats2.by_type_inline.count scale_factor,
          scaleStat stats2.by_type_inline.input_tokens scale_factor,
          scaleStat stats2.by_type_inline.output_tokens scale_factor⟩ }
    else stats2

/-! Specification-side aggregates over a record list, for comparison with
the totals reported by `analyze_usage`. -/

/-- The records that survive the user filter (the ones the loop counts). -/
def keptRecords (user_pattern : Option String) (l : List LogRecord) : List LogRecord :=
  l.filter (passesFilter user_pattern)

/-- The records of one type. -/
def ofType (t : LType) (l : List LogRecord) : List LogRecord :=
  l.filter (fun r => r.rtype = t)

/-- Sum of the input-token counts of a record list. -/
def sumInput (l : List LogRecord) : Nat :=
  (l.map LogRecord.input_tokens).sum

/-- Sum of the output-token counts of a record list. -/
def sumOutput (l : List LogRecord) : Nat :=
  (l.map LogRecord.output_tokens).sum

/-! ### `prepare_ltr_data.py`: `format_for_ranklib` (lines 186-227)

A training record carries a query string, a document id, a rating and a
feature dictionary (values are Python floats, modelled exactly as rationals).
The function walks the records once, assigning `qid`s 1, 2, 3, … to query
strings in order of first appearance via `query_id_map`, and emits one
RankLib line per record. -/

structure TRecord where
  query : String
  doc_id : String
  rating : ℚ
  features : List (String × ℚ)
  deriving DecidableEq, Repr

/-- Round-half-even of a rational to an integer (the rounding used by
Python `format` for the `f` presentation type, applied here to the exact
rational value). -/
def roundHalfEven (x : ℚ) : Int :=
  let f := Int.floor x
  let r := x - f
  if r < 1 / 2 then f
  else if 1 / 2 < r then f + 1
  else if f % 2 = 0 then f else f + 1

/-- Left-pad a string with zeros to width `w`. -/
def zeroPad (w : Nat) (s : String) : String :=
  String.mk (List.replicate (w - s.length) '0') ++ s

/-- Python `f"{value:.6f}"` on the exact rational `value`: six digits after
the decimal point, round-half-even. -/
def formatQ6 (q : ℚ) : String :=
  let n := roundHalfEven (q * 1000000)
  let m := n.natAbs
  (if n < 0 then "-" else "") ++ toString (m / 1000000) ++ "." ++ zeroPad 6 (toString (m % 1000000))

/-- The feature part of one line (lines 218-223): for `i, name` in
`enumerate(feature_names, 1)`, the entry `i:value` with
`value = features.get(name, 0.0)` rendered as `.6f`, joined by spaces. -/
def mkFeatureStr (feature_names : List String) (features : List (String × ℚ)) : String :=
  String.intercalate " "
    (feature_names.enum.map (fun p =>
      toString (p.1 + 1) ++ ":" ++ formatQ6 ((lookupS features p.2).getD 0)))

/-- One output line (line 224):
`f"{rating} qid:{qid} {feature_str} # {doc_id}"` with
`rating = int(record['rating'])`. -/
def mkLine (feature_names : List String) (r : TRecord) (qid : Nat) : String :=
  toString (pyInt r.rating) ++ " qid:" ++ toString qid ++ " " ++
    mkFeatureStr feature_names r.features ++ " # " ++ r.doc_id

/-- The record loop of `format_for_ranklib` (lines 206-225): `qmap` is
`query_id_map`, `cur` is `current_qid`. -/
def ranklibAux (feature_names : List String) :
    List TRecord → List (String × Nat) → Nat → List String
  | [], _, _ => []
  | r :: rest, qmap, cur =>
    match lookupS qmap r.query with
    | some qid => mkLine feature_names r qid :: ranklibAux feature_names rest qmap cur
    | none =>
      let cur' := cur + 1
      mkLine feature_names r cur' :: ranklibAux feature_names rest (qmap ++ [(r.query, cur')]) cur'

/-- Python `format_for_ranklib` (prepare_ltr_data.py lines 186-227). -/
def format_for_ranklib (data : List TRecord) (feature_names : List String) : String :=
  String.intercalate "\n" (ranklibAux feature_names data [] 0)

/-! Specification-side qid assignment, for comparison with the code:
the qid of a query is one plus its index in the list of distinct queries
ordered by first appearance. -/

/-- Fold a list of queries into `acc`, appending each query not seen yet. -/
def dedupFrom (acc : List String) (l : List String) : List String :=
  l.foldl (fun a q => if q ∈ a then a else a ++ [q]) acc

/-- The distinct queries of `l` in order of first appearance. -/
def firstAppearances (l : List String) : List String :=
  dedupFrom [] l

/-- Index of the first occurrence of `q` (the length of the list when `q` is
absent; only applied to present elements below). -/
def idxOf : List String → String → Nat
  | [], _ => 0
  | x :: xs, q => if x = q then 0 else idxOf xs q + 1

/-- The qid that the claim assigns to query `q` of `data`: one plus the index
of `q` among the distinct queries in order of first appearance. -/
def qidSpec (data : List TRecord) (q : String) : Nat :=
  idxOf (firstAppearances (data.map TRecord.query)) q + 1

/-! ## Theorems -/

/-- C1: for every usage summary and every estimation_type that is a key of
`QCLI_TOKEN_ESTIMATION` (i.e. "conservative", "average" or "optimistic",
whose multipliers are `c`), `estimate_tokens` returns as
`estimated_input_tokens` the sum over event kinds (chat messages, inline
suggestions, dev/test/doc events) of the summary's count (0 when absent)
times that kind's static input multiplier; `estimated_output_tokens` is the
analogous sum with the output multipliers (also covering chat code lines,
inline code lines and inline acceptances); and `estimated_total_tokens` is
their sum. -/
theorem claim_c1 (summary : QSummary) (estimation_type : String) (c : EstConstants)
    (h : lookupS QCLI_TOKEN_ESTIMATION estimation_type = some c) :
    (estimate_tokens summary estimation_type).estimated_input_tokens =
      summary.total_chat_messages.getD 0 * c.chat_message_input +
      summary.total_inline_suggestions.getD 0 * c.inline_suggestion +
      summary.total_dev_events.getD 0 * c.dev_event_input +
      summary.total_test_events.getD 0 * c.test_event_input +
      summary.total_doc_events.getD 0 * c.doc_event_input ∧
    (estimate_tokens summary estimation_type).estimated_output_tokens =
      summary.total_chat_messages.getD 0 * c.chat_message_output +
      summary.total_chat_code_lines.getD 0 * c.chat_code_line +
      summary.total_inline_code_lines.getD 0 * c.inline_code_line +
      summary.total_inline_acceptances.getD 0 * c.inline_suggestion +
      summary.total_dev_events.getD 0 * c.dev_event_output +
      summary.total_test_events.getD 0 * c.test_event_output +
      summary.total_doc_events.getD 0 * c.doc_event_output ∧
    (estimate_tokens summary estimation_type).estimated_total_tokens =
      (estimate_tokens summary estimation_type).estimated_input_tokens +
      (estimate_tokens summary estimation_type).estimated_output_tokens := by
  refine ⟨?_, ?_, ?_⟩ <;> simp [estimate_tokens, h]

/-- Witness for C1 at a concrete summary and `"conservative"`. -/
theorem claim_c1_witness :
    lookupS QCLI_TOKEN_ESTIMATION "conservative" = some qcliConservative ∧
    (estimate_tokens ⟨some 10, none, some 5, none, some 2, some 1, none, some 3⟩
        "conservative").estimated_input_tokens =
      10 * qcliConservative.chat_message_input +
      5 * qcliConservative.inline_suggestion +
      1 * qcliConservative.dev_event_input +
      0 * qcliConservative.test_event_input +
      3 * qcliConservative.doc_event_input :=
  ⟨by decide,
   (claim_c1 ⟨some 10, none, some 5, none, some 2, some 1, none, some 3⟩
     "conservative" qcliConservative (by decide)).1⟩

/-- C8: the `estimate_tokens` of bedrock_tracker.py and the `estimate_tokens`
of bedrock_tracker_cli.py (each over its own copy of
`QCLI_TOKEN_ESTIMATION`) return equal results on every summary and every
estimation type. -/
theorem claim_c8 (summary : QSummary) (estimation_type : String) :
    estimate_tokens_cli summary estimation_type = estimate_tokens summary estimation_type := rfl

/-- C10: for every estimation_type that is none of "conservative",
"average", "optimistic", `estimate_tokens` does not fail: it falls back to
the "average" multipliers and returns exactly the result of
`estimate_tokens summary "average"`, whose `estimation_type` field is
"average". -/
theorem claim_c10 (summary : QSummary) (estimation_type : String)
    (h1 : estimation_type ≠ "conservative") (h2 : estimation_type ≠ "average")
    (h3 : estimation_type ≠ "optimistic") :
    estimate_tokens summary estimation_type = estimate_tokens summary "average" ∧
    (estimate_tokens summary estimation_type).estimation_type = "average" := by
  have hl : lookupS QCLI_TOKEN_ESTIMATION estimation_type = none := by
    simp only [QCLI_TOKEN_ESTIMATION, lookupS]
    rw [if_neg (fun h => h1 h.symm), if_neg (fun h => h2 h.symm), if_neg (fun h => h3 h.symm)]
  have ha : lookupS QCLI_TOKEN_ESTIMATION "average" = some qcliAverage := by decide
  constructor
  · simp [estimate_tokens, hl, ha]
  · simp [estimate_tokens, hl]

/-- Witness for C10 at the unknown type `"median"`. -/
theorem claim_c10_witness :
    estimate_tokens ⟨some 1, some 2, some 3, some 4, some 5, some 6, some 7, some 8⟩ "median" =
      estimate_tokens ⟨some 1, some 2, some 3, some 4, some 5, some 6, some 7, some 8⟩
        "average" :=
  (claim_c10 ⟨some 1, some 2, some 3, some 4, some 5, some 6, some 7, some 8⟩ "median"
    (by decide) (by decide) (by decide)).1

/-- The counterexample to C3 as stated: `" "` is a non-empty training data
string, yet `upload_model` sends no model definition at all (the
`return False` path), because stripping leaves no non-empty line. -/
theorem claim_c3_counterexample :
    (" " : String) ≠ "" ∧ upload_model "ltr_model" " " = none := by
  exact ⟨by decide, by decide⟩

/-- C3 (amended): for every training data string that still contains a
non-empty line after stripping, `upload_model` sends a model definition of
type "model/linear" whose eight feature weights are the fixed constants
1.0, 0.5, 0.3, 0.2, 0.2, 0.1, 0.3, 0.1 for features "1"‥"8", independent of
the contents of the training data (the right-hand side does not mention
`training_data`); no fitting is performed. -/
theorem claim_c3 (model_name training_data : String)
    (h : pyLines training_data ≠ []) :
    upload_model model_name training_data =
      some { name := model_name, model_type := "model/linear", weights := ltrFixedWeights } ∧
    ltrFixedWeights =
      [("1", 1), ("2", 1 / 2), ("3", 3 / 10), ("4", 1 / 5),
       ("5", 1 / 5), ("6", 1 / 10), ("7", 3 / 10), ("8", 1 / 10)] := by
  have he : (pyLines training_data).isEmpty = false := by
    cases hq : pyLines training_data with
    | nil => exact absurd hq h
    | cons a l => rfl
  exact ⟨by simp [upload_model, he], rfl⟩

/-- Witness for C3 (amended) at a one-line RankLib string. -/
theorem claim_c3_witness :
    pyLines "3 qid:1 1:0.5 # doc1" ≠ [] ∧
    upload_model "m" "3 qid:1 1:0.5 # doc1" =
      some { name := "m", model_type := "model/linear", weights := ltrFixedWeights } :=
  ⟨by decide, (claim_c3 "m" "3 qid:1 1:0.5 # doc1" (by decide)).1⟩

/-- C5: when an exception is raised while listing S3 objects,
`list_log_files` returns the empty list instead of propagating it, and when
the OpenSearch search raises, `fetch_judgments` returns the empty list
instead of propagating it. -/
theorem claim_c5 (s3ListKeys : String → Except String (List String))
    (account_id : String) (dates : List (String × String × String))
    (log_type : Option String) (e₁ : String)
    (searchResult : Except String (List JudgmentSource)) (e₂ : String) :
    (listLogFilesCore s3ListKeys account_id dates log_type = .error e₁ →
      list_log_files s3ListKeys account_id dates log_type = []) ∧
    (searchResult = .error e₂ → fetch_judgments searchResult = []) := by
  constructor
  · intro h; simp [list_log_files, h]
  · intro h; simp [fetch_judgments, h]

/-- Witness for C5: a failing S3 oracle and a failing search. -/
theorem claim_c5_witness :
    list_log_files (fun _ => .error "S3 down") "123456789012" [("2025", "01", "01")] none = [] ∧
    fetch_judgments (.error "search failed") = [] :=
  ⟨(claim_c5 (fun _ => .error "S3 down") "123456789012" [("2025", "01", "01")] none
      "S3 down" (.error "search failed") "search failed").1 (by rfl),
   (claim_c5 (fun _ => .error "S3 down") "123456789012" [("2025", "01", "01")] none
      "S3 down" (.error "search failed") "search failed").2 (by rfl)⟩

/-- A switchover call collected by the loop was already in the accumulator
or had described status `"AVAILABLE"`. -/
theorem switchover_mem_aux (statusOf : String → Except String String) :
    ∀ (deps : List (String × String)) (acc : List String) (identifier : String),
      identifier ∈ deps.foldl (switchoverStep statusOf) acc →
      identifier ∈ acc ∨ statusOf identifier = .ok "AVAILABLE" := by
  intro deps
  induction deps with
  | nil => exact fun acc identifier h => .inl h
  | cons d rest ih =>
    intro acc identifier h
    rcases ih (switchoverStep statusOf acc d) identifier h with h' | h'
    · unfold switchoverStep at h'
      revert h'
      cases hs : statusOf d.1 with
      | error e => exact fun h' => .inl h'
      | ok st =>
        by_cases hA : st = "AVAILABLE"
        · subst hA
          simp only [if_pos rfl]
          intro h'
          rcases List.mem_append.mp h' with h'' | h''
          · exact .inl h''
          · simp only [List.mem_singleton] at h''
            subst h''
            exact .inr hs
        · simp only [if_neg hA]
          exact fun h' => .inl h'
    · exact .inr h'

/-- C6: the switchover script issues `switchover_blue_green_deployment` for a
deployment only when the deployment's second `describe` reported status
`"AVAILABLE"`; deployments with any other status (or a failed describe) get
no switchover call. -/
theorem claim_c6 (deployments : List (String × String))
    (statusOf : String → Except String String) (identifier : String)
    (h : identifier ∈ switchoverRun deployments statusOf) :
    statusOf identifier = .ok "AVAILABLE" := by
  rcases switchover_mem_aux statusOf deployments [] identifier h with h' | h'
  · exact absurd h' (List.not_mem_nil identifier)
  · exact h'

/-- Witness for C6: two deployments, one available and one mid-switchover;
the issued call is for the available one. -/
theorem claim_c6_witness :
    (fun identifier => if identifier = "bgd-1" then Except.ok "AVAILABLE"
      else (Except.ok "SWITCHOVER_IN_PROGRESS" : Except String String)) "bgd-1" =
      .ok "AVAILABLE" :=
  claim_c6 [("bgd-1", "cluster-a"), ("bgd-2", "cluster-b")]
    (fun identifier => if identifier = "bgd-1" then Except.ok "AVAILABLE"
      else (Except.ok "SWITCHOVER_IN_PROGRESS" : Except String String))
    "bgd-1" (by decide)

/-- C7: when the listing yields no log files, `analyze_usage` returns the
`_empty_stats` dictionary, whose counters and token totals are all 0 and
whose `by_user`, `by_date`, `by_hour` and `period` are empty. -/
theorem claim_c7 (s3ListKeys : String → Except String (List String))
    (account_id : String) (dates : List (String × String × String))
    (parse_log_file : String → List LogRecord)
    (startIso endIso : String) (deltaDays : Int) (user_pattern : Option String)
    (h : list_log_files s3ListKeys account_id dates none = []) :
    analyze_usage s3ListKeys account_id dates parse_log_file startIso endIso deltaDays
        user_pattern = emptyStats ∧
    emptyStats.total_log_files = 0 ∧ emptyStats.total_requests = 0 ∧
    emptyStats.total_input_tokens = 0 ∧ emptyStats.total_output_tokens = 0 ∧
    emptyStats.total_tokens = 0 ∧
    emptyStats.by_type_chat = ⟨0, 0, 0⟩ ∧ emptyStats.by_type_inline = ⟨0, 0, 0⟩ ∧
    emptyStats.by_user = [] ∧ emptyStats.by_date = [] ∧ emptyStats.by_hour = [] ∧
    emptyStats.period = none := by
  refine ⟨?_, rfl, rfl, rfl, rfl, rfl, rfl, rfl, rfl, rfl, rfl, rfl⟩
  simp [analyze_usage, h]

/-- Witness for C7: an S3 oracle whose listing raises, so no files are found. -/
theorem claim_c7_witness :
    analyze_usage (fun _ => .error "denied") "123456789012" [("2025", "01", "02")]
        (fun _ => []) "2025-01-02T00:00:00" "2025-01-02T23:59:59" 0 none = emptyStats ∧
    emptyStats.total_log_files = 0 ∧ emptyStats.total_requests = 0 ∧
    emptyStats.total_input_tokens = 0 ∧ emptyStats.total_output_tokens = 0 ∧
    emptyStats.total_tokens = 0 ∧
    emptyStats.by_type_chat = ⟨0, 0, 0⟩ ∧ emptyStats.by_type_inline = ⟨0, 0, 0⟩ ∧
    emptyStats.by_user = [] ∧ emptyStats.by_date = [] ∧ emptyStats.by_hour = [] ∧
    emptyStats.period = none :=
  claim_c7 (fun _ => .error "denied") "123456789012" [("2025", "01", "02")]
    (fun _ => []) "2025-01-02T00:00:00" "2025-01-02T23:59:59" 0 none (by rfl)

/-- A successful poll run starting at index `i` with `fuel` polls left ended
at an index `j` in range whose status was `SUCCEEDED`, every earlier polled
status being non-terminal. -/
theorem pollAux_ok (st rs : Nat → String) :
    ∀ (fuel i j : Nat), pollAux st rs fuel i = .ok j →
      i ≤ j ∧ j < i + fuel ∧ st j = "SUCCEEDED" ∧
      ∀ m, i ≤ m → m < j →
        st m ≠ "SUCCEEDED" ∧ st m ≠ "FAILED" ∧ st m ≠ "CANCELLED" := by
  intro fuel
  induction fuel with
  | zero => intro i j h; exact absurd h (by simp [pollAux])
  | succ fuel ih =>
    intro i j h
    unfold pollAux at h
    by_cases h1 : st i = "SUCCEEDED"
    · rw [if_pos h1] at h
      obtain rfl : i = j := Except.ok.inj h
      exact ⟨le_refl i, by omega, h1, fun m hm hm' => absurd hm' (by omega)⟩
    · rw [if_neg h1] at h
      by_cases h2 : st i = "FAILED" ∨ st i = "CANCELLED"
      · rw [if_pos h2] at h
        exact absurd h (by simp)
      · rw [if_neg h2] at h
        obtain ⟨hij, hlt, hs, hrest⟩ := ih (i + 1) j h
        refine ⟨by omega, by omega, hs, ?_⟩
        intro m hm hm'
        by_cases hmi : m = i
        · subst hmi
          exact ⟨h1, fun hf => h2 (.inl hf), fun hc => h2 (.inr hc)⟩
        · exact hrest m (by omega) hm'

/-- If the first terminal status in range is `FAILED`/`CANCELLED` at `j`,
the poll run raises `Query failed` with that poll's reason. -/
theorem pollAux_fail (st rs : Nat → String) :
    ∀ (fuel i j : Nat), i ≤ j → j < i + fuel →
      (st j = "FAILED" ∨ st j = "CANCELLED") →
      (∀ m, i ≤ m → m < j →
        st m ≠ "SUCCEEDED" ∧ st m ≠ "FAILED" ∧ st m ≠ "CANCELLED") →
      pollAux st rs fuel i = .error ("Query failed: " ++ rs j) := by
  intro fuel
  induction fuel with
  | zero => intro i j h1 h2; omega
  | succ fuel ih =>
    intro i j hij hlt hterm hpre
    unfold pollAux
    by_cases hji : j = i
    · subst hji
      have h1 : st j ≠ "SUCCEEDED" := by
        intro hs
        rcases hterm with h | h <;> · rw [h] at hs; exact absurd hs (by decide)
      rw [if_neg h1, if_pos hterm]
    · have hni := hpre i (le_refl i) (by omega)
      rw [if_neg hni.1,
        if_neg (fun h => by rcases h with h | h; exact hni.2.1 h; exact hni.2.2 h)]
      exact ih (i + 1) j (by omega) (by omega) hterm (fun m hm hm' => hpre m (by omega) hm')

/-- If every status in range is non-terminal, the run times out. -/
theorem pollAux_timeout (st rs : Nat → String) :
    ∀ (fuel i : Nat),
      (∀ m, i ≤ m → m < i + fuel →
        st m ≠ "SUCCEEDED" ∧ st m ≠ "FAILED" ∧ st m ≠ "CANCELLED") →
      pollAux st rs fuel i = .error "Query timeout" := by
  intro fuel
  induction fuel with
  | zero => intro i _; rfl
  | succ fuel ih =>
    intro i h
    have hi := h i (le_refl i) (by omega)
    unfold pollAux
    rw [if_neg hi.1,
      if_neg (fun hc => by rcases hc with hc | hc; exact hi.2.1 hc; exact hi.2.2 hc)]
    exact ih (i + 1) (fun m hm hm' => h m (by omega) (by omega))

/-- The run only consults statuses at the polled indices: two status oracles
agreeing on the polled range give the same outcome. -/
theorem pollAux_congr (rs : Nat → String) :
    ∀ (fuel i : Nat) (st st' : Nat → String),
      (∀ m, i ≤ m → m < i + fuel → st m = st' m) →
      pollAux st rs fuel i = pollAux st' rs fuel i := by
  intro fuel
  induction fuel with
  | zero => intro i st st' _; rfl
  | succ fuel ih =>
    intro i st st' h
    have hi : st i = st' i := h i (le_refl i) (by omega)
    unfold pollAux
    rw [hi]
    by_cases h1 : st' i = "SUCCEEDED"
    · rw [if_pos h1, if_pos h1]
    · rw [if_neg h1, if_neg h1]
      by_cases h2 : st' i = "FAILED" ∨ st' i = "CANCELLED"
      · rw [if_pos h2, if_pos h2]
      · rw [if_neg h2, if_neg h2]
        exact ih (i + 1) st st' (fun m hm hm' => h m (by omega) (by omega))

/-- C4: `execute_athena_query` polls the status at most 60 times (the
outcome depends only on the first 60 statuses); a success is a poll `j < 60`
that observed `SUCCEEDED` after only non-terminal statuses; the first
`FAILED`/`CANCELLED` status raises `Query failed` at once; 60 polls without
`SUCCEEDED` (or a failure) raise `Query timeout`; and query results are
delivered only when some poll `j < 60` observed `SUCCEEDED`. -/
theorem claim_c4 {α : Type} (statuses reasons : Nat → String) :
    (∀ j, pollQuery statuses reasons = .ok j →
      j < 60 ∧ statuses j = "SUCCEEDED" ∧
      ∀ m, m < j →
        statuses m ≠ "SUCCEEDED" ∧ statuses m ≠ "FAILED" ∧ statuses m ≠ "CANCELLED") ∧
    (∀ j, j < 60 → (statuses j = "FAILED" ∨ statuses j = "CANCELLED") →
      (∀ m, m < j →
        statuses m ≠ "SUCCEEDED" ∧ statuses m ≠ "FAILED" ∧ statuses m ≠ "CANCELLED") →
      pollQuery statuses reasons = .error ("Query failed: " ++ reasons j)) ∧
    ((∀ m, m < 60 →
        statuses m ≠ "SUCCEEDED" ∧ statuses m ≠ "FAILED" ∧ statuses m ≠ "CANCELLED") →
      pollQuery statuses reasons = .error "Query timeout") ∧
    (∀ statuses' : Nat → String, (∀ m, m < 60 → statuses m = statuses' m) →
      pollQuery statuses reasons = pollQuery statuses' reasons) ∧
    (∀ (results out : α),
      execute_athena_query statuses reasons results = .ok out →
      out = results ∧ ∃ j, j < 60 ∧ statuses j = "SUCCEEDED") := by
  refine ⟨?_, ?_, ?_, ?_, ?_⟩
  · intro j h
    obtain ⟨_, hlt, hs, hrest⟩ := pollAux_ok statuses reasons 60 0 j h
    exact ⟨by omega, hs, fun m hm => hrest m (Nat.zero_le m) hm⟩
  · intro j hj hterm hpre
    exact pollAux_fail statuses reasons 60 0 j (Nat.zero_le j) (by omega) hterm
      (fun m _ hm => hpre m hm)
  · intro h
    exact pollAux_timeout statuses reasons 60 0 (fun m _ hm => h m (by omega))
  · intro statuses' h
    exact pollAux_congr reasons 60 0 statuses statuses' (fun m _ hm => h m (by omega))
  · intro results out h
    unfold execute_athena_query at h
    cases hp : pollQuery statuses reasons with
    | error e => rw [hp] at h; exact absurd h (by simp [Except.map])
    | ok j =>
      rw [hp] at h
      obtain ⟨_, hlt, hs, _⟩ := pollAux_ok statuses reasons 60 0 j hp
      exact ⟨(Except.ok.inj h).symm, j, by omega, hs⟩

/-- Witness for C4: a query that never leaves `RUNNING` times out. -/
theorem claim_c4_witness :
    pollQuery (fun _ => "RUNNING") (fun _ => "") = .error "Query timeout" :=
  (claim_c4 (α := Nat) (fun _ => "RUNNING") (fun _ => "")).2.2.1
    (fun m _ => by refine ⟨?_, ?_, ?_⟩ <;> decide)

theorem dedupFrom_cons (acc : List String) (q : String) (rest : List String) :
    dedupFrom acc (q :: rest) = dedupFrom (if q ∈ acc then acc else acc ++ [q]) rest := rfl

theorem dedupFrom_eq_append :
    ∀ (l acc : List String), ∃ ext, dedupFrom acc l = acc ++ ext := by
  intro l
  induction l with
  | nil => intro acc; exact ⟨[], by simp [dedupFrom]⟩
  | cons q rest ih =>
    intro acc
    rw [dedupFrom_cons]
    by_cases hq : q ∈ acc
    · rw [if_pos hq]; exact ih acc
    · rw [if_neg hq]
      obtain ⟨ext, he⟩ := ih (acc ++ [q])
      exact ⟨q :: ext, by rw [he, List.append_assoc]; rfl⟩

theorem idxOf_append (acc ext : List String) (q : String) (h : q ∈ acc) :
    idxOf (acc ++ ext) q = idxOf acc q := by
  induction acc with
  | nil => exact absurd h (List.not_mem_nil q)
  | cons x xs ih =>
    by_cases hx : x = q
    · simp [idxOf, hx]
    · have hxs : q ∈ xs := by
        rcases List.mem_cons.mp h with h' | h'
        · exact absurd h'.symm hx
        · exact h'
      simp [idxOf, hx, ih hxs]

theorem idxOf_dedupFrom (l acc : List String) (q : String) (h : q ∈ acc) :
    idxOf (dedupFrom acc l) q = idxOf acc q := by
  obtain ⟨ext, he⟩ := dedupFrom_eq_append l acc
  rw [he]
  exact idxOf_append acc ext q h

theorem idxOf_append_self (acc : List String) (q : String) (h : q ∉ acc) :
    idxOf (acc ++ [q]) q = acc.length := by
  induction acc with
  | nil => simp [idxOf]
  | cons x xs ih =>
    have hx : x ≠ q := fun he => h (he ▸ List.mem_cons_self x xs)
    have hxs : q ∉ xs := fun he => h (List.mem_cons_of_mem x he)
    simp [idxOf, hx, ih hxs]

theorem lookupS_append {α : Type} (l₁ l₂ : List (String × α)) (q : String) :
    lookupS (l₁ ++ l₂) q =
      match lookupS l₁ q with
      | some v => some v
      | none => lookupS l₂ q := by
  induction l₁ with
  | nil => simp [lookupS]
  | cons p rest ih =>
    obtain ⟨k, v⟩ := p
    by_cases hk : k = q
    · simp [lookupS, hk]
    · simp [lookupS, hk, ih]

/-- The loop invariant of `format_for_ranklib`: if `query_id_map` maps
exactly the queries of `acc` (the distinct queries already seen, in order)
to one plus their index, and `current_qid = acc.length`, then the remaining
records are rendered with the first-appearance qids. -/
theorem ranklibAux_spec (names : List String) :
    ∀ (rest : List TRecord) (acc : List String) (qmap : List (String × Nat)),
      (∀ q, lookupS qmap q = if q ∈ acc then some (idxOf acc q + 1) else none) →
      ranklibAux names rest qmap acc.length =
        rest.map (fun r =>
          mkLine names r (idxOf (dedupFrom acc (rest.map TRecord.query)) r.query + 1)) := by
  intro rest
  induction rest with
  | nil => intro acc qmap _; rfl
  | cons r rest ih =>
    intro acc qmap hinv
    have hq := hinv r.query
    rw [List.map_cons, List.map_cons, dedupFrom_cons]
    by_cases hm : r.query ∈ acc
    · rw [if_pos hm] at hq ⊢
      simp only [ranklibAux, hq]
      congr 1
      · rw [idxOf_dedupFrom _ _ _ hm]
      · exact ih acc qmap hinv
    · rw [if_neg hm] at hq ⊢
      simp only [ranklibAux, hq]
      have hinv' : ∀ q, lookupS (qmap ++ [(r.query, acc.length + 1)]) q =
          if q ∈ acc ++ [r.query] then some (idxOf (acc ++ [r.query]) q + 1) else none := by
        intro q
        rw [lookupS_append, hinv q]
        by_cases hqa : q ∈ acc
        · rw [if_pos hqa, if_pos (List.mem_append_left _ hqa), idxOf_append acc _ q hqa]
        · rw [if_neg hqa]
          by_cases hqr : q = r.query
          · subst hqr
            simp only [lookupS, if_pos rfl]
            rw [if_pos (List.mem_append_right _ (List.mem_singleton.mpr rfl)),
              idxOf_append_self acc r.query hm]
            simp
          · simp only [lookupS, if_neg (fun h : r.query = q => hqr h.symm)]
            rw [if_neg (by
              intro hmem
              rcases List.mem_append.mp hmem with h' | h'
              · exact hqa h'
              · exact hqr (List.mem_singleton.mp h'))]
      have htail := ih (acc ++ [r.query]) (qmap ++ [(r.query, acc.length + 1)]) hinv'
      rw [List.length_append, List.length_singleton] at htail
      rw [htail]
      congr 1
      have hfirst : r.query ∈ acc ++ [r.query] :=
        List.mem_append_right _ (List.mem_singleton.mpr rfl)
      rw [idxOf_dedupFrom _ _ _ hfirst, idxOf_append_self acc _ hm]

/-- C9: `format_for_ranklib` emits exactly one line per record, in input
order, of the form `<rating> qid:<qid> 1:<f1> ... n:<fn> # <doc_id>` with one
indexed entry per feature name (a missing feature contributing the default
0.0); equal query strings get the same qid, and distinct query strings get
qids 1, 2, 3, … in order of first appearance. -/
theorem claim_c9 (data : List TRecord) (feature_names : List String) :
    format_for_ranklib data feature_names =
      String.intercalate "\n"
        (data.map (fun r => mkLine feature_names r (qidSpec data r.query))) := by
  unfold format_for_ranklib qidSpec firstAppearances
  congr 1
  have h0 : ∀ q : String, lookupS ([] : List (String × Nat)) q =
      if q ∈ ([] : List String) then some (idxOf [] q + 1) else none := by
    intro q; simp [lookupS]
  exact ranklibAux_spec feature_names data [] [] h0

/-- Field-level effect of one record-loop iteration on the counters that the
claim is about (the `by_user`/`by_date`/`by_hour` updates touch none of
them). -/
theorem stepRecord_fields (up : Option String) (s : UsageStats) (r : LogRecord) :
    ((stepRecord up s r).total_requests =
        s.total_requests + (if passesFilter up r then 1 else 0)) ∧
    ((stepRecord up s r).by_type_chat.count =
        s.by_type_chat.count +
          (if passesFilter up r ∧ r.rtype = LType.chat then 1 else 0)) ∧
    ((stepRecord up s r).by_type_chat.input_tokens =
        s.by_type_chat.input_tokens +
          (if passesFilter up r ∧ r.rtype = LType.chat then r.input_tokens else 0)) ∧
    ((stepRecord up s r).by_type_chat.output_tokens =
        s.by_type_chat.output_tokens +
          (if passesFilter up r ∧ r.rtype = LType.chat then r.output_tokens else 0)) ∧
    ((stepRecord up s r).by_type_inline.count =
        s.by_type_inline.count +
          (if passesFilter up r ∧ r.rtype = LType.inline then 1 else 0)) ∧
    ((stepRecord up s r).by_type_inline.input_tokens =
        s.by_type_inline.input_tokens +
          (if passesFilter up r ∧ r.rtype = LType.inline then r.input_tokens else 0)) ∧
    ((stepRecord up s r).by_type_inline.output_tokens =
        s.by_type_inline.output_tokens +
          (if passesFilter up r ∧ r.rtype = LType.inline then r.output_tokens else 0)) ∧
    ((stepRecord up s r).total_log_files = s.total_log_files) ∧
    ((stepRecord up s r).period = s.period) := by
  by_cases hp : passesFilter up r <;>
    cases hrt : r.rtype <;>
    by_cases hts : r.timestamp = "" <;>
    by_cases hpl : 2 ≤ (r.timestamp.splitOn "T").length <;>
    simp [stepRecord, bumpType, hp, hrt, hts, hpl]

/-- The record loop accumulates exactly the per-filter, per-type counts and
token sums of the processed records on top of the initial statistics. -/
theorem foldl_stepRecord (up : Option String) :
    ∀ (l : List LogRecord) (s : UsageStats),
      ((l.foldl (stepRecord up) s).total_requests =
          s.total_requests + (keptRecords up l).length) ∧
      ((l.foldl (stepRecord up) s).by_type_chat.count =
          s.by_type_chat.count + (ofType LType.chat (keptRecords up l)).length) ∧
      ((l.foldl (stepRecord up) s).by_type_chat.input_tokens =
          s.by_type_chat.input_tokens + sumInput (ofType LType.chat (keptRecords up l))) ∧
      ((l.foldl (stepRecord up) s).by_type_chat.output_tokens =
          s.by_type_chat.output_tokens + sumOutput (ofType LType.chat (keptRecords up l))) ∧
      ((l.foldl (stepRecord up) s).by_type_inline.count =
          s.by_type_inline.count + (ofType LType.inline (keptRecords up l)).length) ∧
      ((l.foldl (stepRecord up) s).by_type_inline.input_tokens =
          s.by_type_inline.input_tokens + sumInput (ofType LType.inline (keptRecords up l))) ∧
      ((l.foldl (stepRecord up) s).by_type_inline.output_tokens =
          s.by_type_inline.output_tokens + sumOutput (ofType LType.inline (keptRecords up l))) ∧
      ((l.foldl (stepRecord up) s).total_log_files = s.total_log_files) ∧
      ((l.foldl (stepRecord up) s).period = s.period) := by
  intro l
  induction l with
  | nil =>
    intro s
    simp [keptRecords, ofType, sumInput, sumOutput]
  | cons r rest ih =>
    intro s
    obtain ⟨s1, s2, s3, s4, s5, s6, s7, s8, s9⟩ := stepRecord_fields up s r
    obtain ⟨i1, i2, i3, i4, i5, i6, i7, i8, i9⟩ := ih (stepRecord up s r)
    refine ⟨?_, ?_, ?_, ?_, ?_, ?_, ?_, ?_, ?_⟩ <;>
      rw [List.foldl_cons] <;>
      simp only [i1, i2, i3, i4, i5, i6, i7, i8, i9, s1, s2, s3, s4, s5, s6, s7, s8, s9] <;>
      cases hrt : r.rtype <;>
      by_cases hp : passesFilter up r <;>
      simp [hp, hrt, keptRecords, ofType, List.filter_cons, sumInput, sumOutput] <;>
      omega

/-- Every record is either chat or inline, so the per-type input sums add up
to the total input sum. -/
theorem sumInput_partition (l : List LogRecord) :
    sumInput (ofType LType.chat l) + sumInput (ofType LType.inline l) = sumInput l := by
  induction l with
  | nil => simp [ofType, sumInput]
  | cons r rest ih =>
    cases hrt : r.rtype <;>
      simp [ofType, List.filter_cons, hrt, sumInput] at ih ⊢ <;> omega

/-- Output-sum analogue of `sumInput_partition`. -/
theorem sumOutput_partition (l : List LogRecord) :
    sumOutput (ofType LType.chat l) + sumOutput (ofType LType.inline l) = sumOutput l := by
  induction l with
  | nil => simp [ofType, sumOutput]
  | cons r rest ih =>
    cases hrt : r.rtype <;>
      simp [ofType, List.filter_cons, hrt, sumOutput] at ih ⊢ <;> omega

/-- A strided slice of a non-empty list keeps at least the head. -/
theorem everyNth_ne_nil {α : Type} (l : List α) (step : Nat) (h : l ≠ []) :
    everyNth l step ≠ [] := by
  cases l with
  | nil => exact absurd rfl h
  | cons x xs => simp [everyNth, everyNthAux]

/-- In exact arithmetic, `int(x * (n / k))` is the truncated ratio
`x * n / k` (natural division). -/
theorem scaleStat_eq (x n k : Nat) :
    scaleStat x ((n : ℚ) / (k : ℚ)) = x * n / k := by
  unfold scaleStat pyIntNat
  have h1 : ((x : ℚ)) * ((n : ℚ) / (k : ℚ)) = ((x * n : Nat) : ℚ) / ((k : Nat) : ℚ) := by
    push_cast; ring
  rw [h1, Int.floor_toNat, Nat.floor_div_nat, Nat.floor_natCast]

/-- C2: when `analyze_usage` samples a strict subset of the listed files
(`sample.length < files.length`), every reported total — `total_requests`,
`total_input_tokens`, `total_output_tokens`, `total_tokens`, and each
per-type count / input / output in `by_type` — equals the corresponding sum
over the sampled files multiplied by the ratio of listed to sampled files
and truncated to an integer (`⋯ * files.length / sample.length` in natural
division); when all listed files are processed, the totals are the plain
sums, unscaled. -/
theorem claim_c2 (s3ListKeys : String → Except String (List String))
    (account_id : String) (dates : List (String × String × String))
    (parse_log_file : String → List LogRecord)
    (startIso endIso : String) (deltaDays : Int) (user_pattern : Option String)
    (files sample : List String) (kept : List LogRecord)
    (hne : files ≠ [])
    (hf : files = list_log_files s3ListKeys account_id dates none)
    (hs : sample =
      if files.length ≤ 500 then files else everyNth files (files.length / 500))
    (hk : kept = keptRecords user_pattern ((sample.map parse_log_file).flatten)) :
    (sample.length < files.length →
      (analyze_usage s3ListKeys account_id dates parse_log_file startIso endIso deltaDays
          user_pattern).total_requests = kept.length * files.length / sample.length ∧
      (analyze_usage s3ListKeys account_id dates parse_log_file startIso endIso deltaDays
          user_pattern).total_input_tokens = sumInput kept * files.length / sample.length ∧
      (analyze_usage s3ListKeys account_id dates parse_log_file startIso endIso deltaDays
          user_pattern).total_output_tokens = sumOutput kept * files.length / sample.length ∧
      (analyze_usage s3ListKeys account_id dates parse_log_file startIso endIso deltaDays
          user_pattern).total_tokens =
        (sumInput kept + sumOutput kept) * files.length / sample.length ∧
      (analyze_usage s3ListKeys account_id dates parse_log_file startIso endIso deltaDays
          user_pattern).by_type_chat.count =
        (ofType LType.chat kept).length * files.length / sample.length ∧
      (analyze_usage s3ListKeys account_id dates parse_log_file startIso endIso deltaDays
          user_pattern).by_type_chat.input_tokens =
        sumInput (ofType LType.chat kept) * files.length / sample.length ∧
      (analyze_usage s3ListKeys account_id dates parse_log_file startIso endIso deltaDays
          user_pattern).by_type_chat.output_tokens =
        sumOutput (ofType LType.chat kept) * files.length / sample.length ∧
      (analyze_usage s3ListKeys account_id dates parse_log_file startIso endIso deltaDays
          user_pattern).by_type_inline.count =
        (ofType LType.inline kept).length * files.length / sample.length ∧
      (analyze_usage s3ListKeys account_id dates parse_log_file startIso endIso deltaDays
          user_pattern).by_type_inline.input_tokens =
        sumInput (ofType LType.inline kept) * files.length / sample.length ∧
      (analyze_usage s3ListKeys account_id dates parse_log_file startIso endIso deltaDays
          user_pattern).by_type_inline.output_tokens =
        sumOutput (ofType LType.inline kept) * files.length / sample.length) ∧
    (¬ sample.length < files.length →
      (analyze_usage s3ListKeys account_id dates parse_log_file startIso endIso deltaDays
          user_pattern).total_requests = kept.length ∧
      (analyze_usage s3ListKeys account_id dates parse_log_file startIso endIso deltaDays
          user_pattern).total_input_tokens = sumInput kept ∧
      (analyze_usage s3ListKeys account_id dates parse_log_file startIso endIso deltaDays
          user_pattern).total_output_tokens = sumOutput kept ∧
      (analyze_usage s3ListKeys account_id dates parse_log_file startIso endIso deltaDays
          user_pattern).total_tokens = sumInput kept + sumOutput kept ∧
      (analyze_usage s3ListKeys account_id dates parse_log_file startIso endIso deltaDays
          user_pattern).by_type_chat.count = (ofType LType.chat kept).length ∧
      (analyze_usage s3ListKeys account_id dates parse_log_file startIso endIso deltaDays
          user_pattern).by_type_chat.input_tokens = sumInput (ofType LType.chat kept) ∧
      (analyze_usage s3ListKeys account_id dates parse_log_file startIso endIso deltaDays
          user_pattern).by_type_chat.output_tokens = sumOutput (ofType LType.chat kept) ∧
      (analyze_usage s3ListKeys account_id dates parse_log_file startIso endIso deltaDays
          user_pattern).by_type_inline.count = (ofType LType.inline kept).length ∧
      (analyze_usage s3ListKeys account_id dates parse_log_file startIso endIso deltaDays
          user_pattern).by_type_inline.input_tokens = sumInput (ofType LType.inline kept) ∧
      (analyze_usage s3ListKeys account_id dates parse_log_file startIso endIso deltaDays
          user_pattern).by_type_inline.output_tokens =
        sumOutput (ofType LType.inline kept)) := by
  have hfe : files.isEmpty = false := by
    cases hq : files with
    | nil => exact absurd hq hne
    | cons a l => rfl
  obtain ⟨f1, f2, f3, f4, f5, f6, f7, f8, f9⟩ :=
    foldl_stepRecord user_pattern ((sample.map parse_log_file).flatten)
      ⟨some ⟨startIso, endIso, deltaDays + 1⟩, files.length, 0, ⟨0, 0, 0⟩, ⟨0, 0, 0⟩,
        [], [], [], 0, 0, 0⟩
  simp only [analyze_usage, ← hf, ← hs, hfe, Bool.false_eq_true, if_false]
  constructor
  · intro hsc
    simp only [if_pos hsc, f1, f2, f3, f4, f5, f6, f7, f8, f9, ← hk, Nat.zero_add,
      scaleStat_eq, sumInput_partition, sumOutput_partition]
    exact ⟨trivial, trivial, trivial, trivial, trivial, trivial, trivial, trivial,
      trivial, trivial⟩
  · intro hsc
    simp only [if_neg hsc, f1, f2, f3, f4, f5, f6, f7, f8, f9, ← hk, Nat.zero_add,
      sumInput_partition, sumOutput_partition]
    exact ⟨trivial, trivial, trivial, trivial, trivial, trivial, trivial, trivial,
      trivial, trivial⟩

set_option maxRecDepth 100000 in
/-- Witness for C2: one date, two log types of 500 files each (1000 listed
files), so the stride-2 sample keeps 500 files and the totals are scaled by
1000/500. -/
theorem claim_c2_witness :
    (analyze_usage (fun _ => .ok (List.replicate 500 "k.json.gz")) "1" [("2025", "01", "01")]
        (fun _ => []) "2025-01-01" "2025-01-01" 0 none).total_requests =
      ([] : List LogRecord).length * (List.replicate 1000 "k.json.gz").length /
        (List.replicate 500 "k.json.gz").length :=
  ((claim_c2 (fun _ => .ok (List.replicate 500 "k.json.gz")) "1" [("2025", "01", "01")]
      (fun _ => []) "2025-01-01" "2025-01-01" 0 none
      (List.replicate 1000 "k.json.gz") (List.replicate 500 "k.json.gz") []
      (by decide) (by decide) (by decide) (by decide)).1 (by decide)).1

end KrTechBlog
